import Mathlib

/-!
Verification of the go-design-patterns repository (Singleton, Builder, Factory)
against its natural-language specification.

Each Go package is shallowly embedded as pure Lean definitions.  Pointers are
modelled as natural-number addresses into explicit heaps; `sync.Once` based
concurrency is modelled by linearization (see `Singleton` below); Go `error`
values are modelled with `Except`/`Option`.
-/

namespace DesignPatterns

/-! ## Embedding of `singleton/example.go`

`GetInstance` wraps its whole body in `once.Do`.  `sync.Once.Do` guarantees
that the supplied function runs at most once, that every `Do` call returns
only after that function has returned, and that concurrent `Do` calls are
serialized by an internal mutex.  Hence every concurrent schedule of N
`GetInstance` calls is observationally equivalent to some sequence of N
atomic calls, and since all callers run the identical body, to THE sequence
of N atomic calls modelled by `runCalls` below.

The package-level variables `instance *DatabaseConnection`, `once sync.Once`
and `connID int` become the fields of `SingletonState`.  A `*DatabaseConnection`
is an address into a heap of allocated connections (`heap`, addresses are list
indices); `instanceAddr = none` models the nil pointer.  `connID` is incremented
exactly once per execution of the initializer body, so it doubles as the count
of initializer invocations.  The `fmt.Printf` side effects are elided.
-/

namespace Singleton

/-- The `DatabaseConnection` struct of `singleton/example.go`. -/
structure DatabaseConnection where
  connectionString : String
  isConnected : Bool
  connectionID : Nat
deriving DecidableEq, Repr

/-- The package-level mutable state of the `singleton` package:
`instance` (here `instanceAddr`, an optional heap address), the `done` flag of
`once sync.Once`, the counter `connID`, and the heap of allocated
`DatabaseConnection` values. -/
structure SingletonState where
  instanceAddr : Option Nat
  onceDone : Bool
  connID : Nat
  heap : List DatabaseConnection
deriving DecidableEq, Repr

/-- The state at process start: `instance = nil`, the `sync.Once` unfired,
`connID = 0`, nothing allocated. -/
def startState : SingletonState :=
  { instanceAddr := none, onceDone := false, connID := 0, heap := [] }

/-- `GetInstance` of `singleton/example.go`, one atomic linearized call.
If the once already fired, it returns the cached pointer unchanged (the body
of `once.Do` is skipped).  Otherwise it increments `connID`, allocates the
`DatabaseConnection` literal of the source, publishes its address in
`instance`, and marks the once fired.  Returns the new state and the returned
pointer value. -/
def GetInstance (s : SingletonState) : SingletonState × Option Nat :=
  if s.onceDone then
    (s, s.instanceAddr)
  else
    let id := s.connID + 1
    let addr := s.heap.length
    ({ instanceAddr := some addr,
       onceDone := true,
       connID := id,
       heap := s.heap ++ [{ connectionString := "postgresql://localhost:5432/mydb",
                            isConnected := false,
                            connectionID := id }] },
     some addr)

/-- A sequence of `n` atomic `GetInstance` calls: the linearization of any
schedule of `n` concurrent callers.  Returns the final state and the list of
pointers the callers received, in linearization order. -/
def runCalls (s : SingletonState) : Nat → SingletonState × List (Option Nat)
  | 0 => (s, [])
  | n + 1 =>
    let r := GetInstance s
    let rest := runCalls r.1 n
    (rest.1, r.2 :: rest.2)

/-- The state after the very first `GetInstance` call of the process. -/
def afterFirst : SingletonState := (GetInstance startState).1

end Singleton

/-! ## The LazySingletonRegistry of spec §4.1 (poisoning accessor)

The repository's own initializer (the closure inside `GetInstance`) has no
failure path, so the failure/poisoning behaviour specified in §4.1 and §7 has
no corresponding code under `src/`; it is modelled here from the spec.
As in the `Singleton` model, the accessor is linearized: the spec requires
concurrent callers arriving while the state is `InProgress` to block until the
initializing caller publishes `Completed` or `Poisoned`, so `InProgress` is
never observable at a linearization point and each accessor call is one atomic
step reading or producing a terminal state. -/

namespace Registry

/-- Modelled from the spec: the `InitializationState` of §3/§4.1, missing from
`src/`.  `Uninit` ("Uninitialized") and `InProgress` are the pre-terminal
states; `Completed` carries the published resource reference (a heap id) and
`Poisoned` the terminal initializer error. -/
inductive RegState where
  | Uninit
  | InProgress
  | Completed (r : Nat)
  | Poisoned (e : String)
deriving DecidableEq, Repr

/-- Modelled from the spec: a registry instance — its initialization state
plus the count of initializer invocations (for stating the at-most-once
guarantee). -/
structure LazySingletonRegistry where
  state : RegState
  initCount : Nat
deriving DecidableEq, Repr

/-- A registry on which no accessor call has ever been made. -/
def freshRegistry : LazySingletonRegistry :=
  { state := .Uninit, initCount := 0 }

/-- Modelled from the spec: `get_instance(initializer)` of §4.1, missing from
`src/`.  The initializer's (fixed) outcome is `ini`: `.ok r` produces resource
`r`, `.error e` signals failure.  On a terminal state the call is a pure read;
on `Uninit` this caller transitions (through the transient `InProgress`) to
`Completed` on success or `Poisoned` on failure, running the initializer
exactly once.  Returns the registry and the outcome this caller observes. -/
def get_instance (reg : LazySingletonRegistry) (ini : Except String Nat) :
    LazySingletonRegistry × Except String Nat :=
  match reg.state with
  | .Completed r => (reg, .ok r)
  | .Poisoned e => (reg, .error e)
  | _ =>
    match ini with
    | .ok r => ({ state := .Completed r, initCount := reg.initCount + 1 }, .ok r)
    | .error e => ({ state := .Poisoned e, initCount := reg.initCount + 1 }, .error e)

/-- `n` linearized accessor calls with the same initializer outcome; returns
the final registry and the outcomes the `n` callers observe. -/
def runAccessors (reg : LazySingletonRegistry) (ini : Except String Nat) :
    Nat → LazySingletonRegistry × List (Except String Nat)
  | 0 => (reg, [])
  | n + 1 =>
    let r := get_instance reg ini
    let rest := runAccessors r.1 ini n
    (rest.1, r.2 :: rest.2)

end Registry

/-! ## Embedding of the `builder` package (`src/unnamed/part_000`)

`*ServerConfigBuilder` values live in a heap `builders : Nat → ServerConfigBuilder`
addressed by naturals; `Build`'s `config := b.config; return &config` allocates
into a separate run of cells `configs` with a fresh-address counter.  A
`*ServerConfig` (`ConfigPtr`) is either the interior pointer `&b.config` of the
builder at some address, or one of those freshly allocated cells — this
distinction is what lets aliasing between a built config and the builder's
staging area be stated and refuted.  `time.Duration` is `int64` nanoseconds,
modelled as `Int`. -/

namespace Builder

/-- `time.Duration`: int64 nanoseconds. -/
abbrev Duration := Int

/-- `time.Second` in nanoseconds. -/
def timeSecond : Duration := 1000000000

/-- The `ServerConfig` struct. -/
structure ServerConfig where
  Host : String
  Port : Int
  SSL : Bool
  Timeout : Duration
  MaxConnections : Int
  ReadTimeout : Duration
  WriteTimeout : Duration
  DatabaseURL : String
  CacheEnabled : Bool
  LogLevel : String
deriving DecidableEq, Repr

/-- The zero value of `ServerConfig` (Go zero-initialization). -/
def zeroConfig : ServerConfig :=
  { Host := "", Port := 0, SSL := false, Timeout := 0, MaxConnections := 0,
    ReadTimeout := 0, WriteTimeout := 0, DatabaseURL := "", CacheEnabled := false,
    LogLevel := "" }

/-- The `ServerConfigBuilder` struct: it holds the staged `config`. -/
structure ServerConfigBuilder where
  config : ServerConfig
deriving DecidableEq, Repr

/-- A `*ServerConfig`: either the interior pointer `&b.config` of the builder
at address `b`, or the standalone cell `q` allocated by a successful `Build`. -/
inductive ConfigPtr where
  | interior (b : Nat)
  | cell (q : Nat)
deriving DecidableEq, Repr

/-- The mutable store of the builder package: a heap of builders (with a
fresh-address counter for `NewServerConfigBuilder`) and a heap of
`ServerConfig` cells allocated by `Build`. -/
structure BState where
  builders : Nat → ServerConfigBuilder
  nextBuilder : Nat
  configs : Nat → ServerConfig
  nextConfig : Nat

/-- A store with nothing allocated (unallocated cells read as zero values). -/
def emptyBState : BState :=
  { builders := fun _ => { config := zeroConfig }, nextBuilder := 0,
    configs := fun _ => zeroConfig, nextConfig := 0 }

/-- `NewServerConfigBuilder()`: allocates a fresh builder whose staged config
carries the source's defaults (Port 8080, no SSL, 30s timeout, 100 max
connections, 10s read/write timeouts, cache off, log level "info"); `Host` and
`DatabaseURL` stay at their zero value `""`.  Returns the store and the new
builder's address. -/
def NewServerConfigBuilder (s : BState) : BState × Nat :=
  let b := s.nextBuilder
  let fresh : ServerConfigBuilder :=
    { config := { Host := "", Port := 8080, SSL := false,
                  Timeout := 30 * timeSecond, MaxConnections := 100,
                  ReadTimeout := 10 * timeSecond, WriteTimeout := 10 * timeSecond,
                  DatabaseURL := "", CacheEnabled := false, LogLevel := "info" } }
  ({ s with builders := fun p => if p = b then fresh else s.builders p,
            nextBuilder := b + 1 }, b)

/-- Update the staged config of the builder at address `b` in place. -/
def updBuilder (s : BState) (b : Nat) (f : ServerConfig → ServerConfig) : BState :=
  { s with builders := fun p => if p = b then { config := f (s.builders b).config }
                                else s.builders p }

/-- Setter `func (b *ServerConfigBuilder) Host(host string) *ServerConfigBuilder`:
mutates `b.config.Host` and returns the receiver pointer `b`. -/
def Host (s : BState) (b : Nat) (host : String) : BState × Nat :=
  (updBuilder s b (fun c => { c with Host := host }), b)

/-- Setter `Port`: mutates `b.config.Port`, returns `b`. -/
def Port (s : BState) (b : Nat) (port : Int) : BState × Nat :=
  (updBuilder s b (fun c => { c with Port := port }), b)

/-- Setter `EnableSSL`: mutates `b.config.SSL`, returns `b`. -/
def EnableSSL (s : BState) (b : Nat) (enable : Bool) : BState × Nat :=
  (updBuilder s b (fun c => { c with SSL := enable }), b)

/-- Setter `Timeout`: mutates `b.config.Timeout`, returns `b`. -/
def Timeout (s : BState) (b : Nat) (timeout : Duration) : BState × Nat :=
  (updBuilder s b (fun c => { c with Timeout := timeout }), b)

/-- Setter `MaxConnections`: mutates `b.config.MaxConnections`, returns `b`. -/
def MaxConnections (s : BState) (b : Nat) (max : Int) : BState × Nat :=
  (updBuilder s b (fun c => { c with MaxConnections := max }), b)

/-- Setter `ReadTimeout`: mutates `b.config.ReadTimeout`, returns `b`. -/
def ReadTimeout (s : BState) (b : Nat) (timeout : Duration) : BState × Nat :=
  (updBuilder s b (fun c => { c with ReadTimeout := timeout }), b)

/-- Setter `WriteTimeout`: mutates `b.config.WriteTimeout`, returns `b`. -/
def WriteTimeout (s : BState) (b : Nat) (timeout : Duration) : BState × Nat :=
  (updBuilder s b (fun c => { c with WriteTimeout := timeout }), b)

/-- Setter `DatabaseURL`: mutates `b.config.DatabaseURL`, returns `b`. -/
def DatabaseURL (s : BState) (b : Nat) (url : String) : BState × Nat :=
  (updBuilder s b (fun c => { c with DatabaseURL := url }), b)

/-- Setter `EnableCache`: mutates `b.config.CacheEnabled`, returns `b`. -/
def EnableCache (s : BState) (b : Nat) (enable : Bool) : BState × Nat :=
  (updBuilder s b (fun c => { c with CacheEnabled := enable }), b)

/-- Setter `LogLevel`: mutates `b.config.LogLevel`, returns `b`. -/
def LogLevel (s : BState) (b : Nat) (level : String) : BState × Nat :=
  (updBuilder s b (fun c => { c with LogLevel := level }), b)

/-- The `validLogLevels` map of `Build`: Go map indexing returns the zero
value `false` for keys not present. -/
def validLogLevels (level : String) : Bool :=
  level = "debug" || level = "info" || level = "warn" || level = "error"

/-- The `ValidationError` struct. -/
structure ValidationError where
  Field : String
  Message : String
deriving DecidableEq, Repr

/-- `func (e *ValidationError) Error() string`. -/
def ValidationError.Error (e : ValidationError) : String :=
  e.Field ++ ": " ++ e.Message

/-- The allocation performed by `Build`'s `config := b.config; return &config`:
copy `c` into a fresh standalone cell and return its pointer. -/
def allocConfig (s : BState) (c : ServerConfig) : BState × ConfigPtr :=
  ({ s with configs := fun q => if q = s.nextConfig then c else s.configs q,
            nextConfig := s.nextConfig + 1 },
   ConfigPtr.cell s.nextConfig)

/-- `func (b *ServerConfigBuilder) Build() (*ServerConfig, error)`: validates
`Host`, then `Port`, then `LogLevel`, in that order, returning a
`ValidationError` naming the first offending field; on success it copies the
staged config into a fresh cell and returns that cell's pointer. -/
def Build (s : BState) (b : Nat) : Except ValidationError (BState × ConfigPtr) :=
  let c := (s.builders b).config
  if c.Host = "" then
    .error { Field := "Host", Message := "host is required" }
  else if c.Port ≤ 0 ∨ c.Port > 65535 then
    .error { Field := "Port", Message := "port must be between 1 and 65535" }
  else if ¬ validLogLevels c.LogLevel then
    .error { Field := "LogLevel",
             Message := "log level must be one of: debug, info, warn, error" }
  else
    .ok (allocConfig s c)

/-- Dereference a `*ServerConfig`. -/
def readConfig (s : BState) : ConfigPtr → ServerConfig
  | .interior b => (s.builders b).config
  | .cell q => s.configs q

/-- One fluent-setter call, as data (used to quantify over arbitrary sequences
of subsequent setter calls). -/
inductive SetterOp where
  | host (v : String)
  | port (v : Int)
  | enableSSL (v : Bool)
  | timeout (v : Duration)
  | maxConnections (v : Int)
  | readTimeout (v : Duration)
  | writeTimeout (v : Duration)
  | databaseURL (v : String)
  | enableCache (v : Bool)
  | logLevel (v : String)
deriving DecidableEq, Repr

/-- Apply one setter call to the builder at address `b` (dropping the returned
receiver pointer, which is `b` again). -/
def applyOp (s : BState) (b : Nat) : SetterOp → BState
  | .host v => (Host s b v).1
  | .port v => (Port s b v).1
  | .enableSSL v => (EnableSSL s b v).1
  | .timeout v => (Timeout s b v).1
  | .maxConnections v => (MaxConnections s b v).1
  | .readTimeout v => (ReadTimeout s b v).1
  | .writeTimeout v => (WriteTimeout s b v).1
  | .databaseURL v => (DatabaseURL s b v).1
  | .enableCache v => (EnableCache s b v).1
  | .logLevel v => (LogLevel s b v).1

/-- Apply a sequence of setter calls to the builder at address `b`. -/
def applyOps (s : BState) (b : Nat) (ops : List SetterOp) : BState :=
  ops.foldl (fun t op => applyOp t b op) s

/-- The demo's minimal chain
`NewServerConfigBuilder().Host("localhost").Port(8080)` run from the store
`s`: the resulting store and the builder's address. -/
def minimalChain (s : BState) : BState × Nat :=
  let r1 := NewServerConfigBuilder s
  let r2 := Host r1.1 r1.2 "localhost"
  Port r2.1 r2.2 8080

/-- The staged configuration produced by `minimalChain`: every default of
`NewServerConfigBuilder` with `Host` and `Port` overwritten. -/
def minimalConfig : ServerConfig :=
  { Host := "localhost", Port := 8080, SSL := false,
    Timeout := 30 * timeSecond, MaxConnections := 100,
    ReadTimeout := 10 * timeSecond, WriteTimeout := 10 * timeSecond,
    DatabaseURL := "", CacheEnabled := false, LogLevel := "info" }

/-- The demo's minimal chain from an empty store. -/
def demoMinimal : BState × Nat := minimalChain emptyBState

/-- The demo's `NewServerConfigBuilder().Port(8080)` chain (host omitted). -/
def demoMissingHost : BState × Nat :=
  let r1 := NewServerConfigBuilder emptyBState
  Port r1.1 r1.2 8080

/-- The demo's `NewServerConfigBuilder().Host("localhost").Port(99999)` chain. -/
def demoInvalidPort : BState × Nat :=
  let r1 := NewServerConfigBuilder emptyBState
  let r2 := Host r1.1 r1.2 "localhost"
  Port r2.1 r2.2 99999

/-- The demo's
`NewServerConfigBuilder().Host("localhost").Port(8080).LogLevel("invalid")`. -/
def demoBadLogLevel : BState × Nat :=
  let r2 := Host (NewServerConfigBuilder emptyBState).1
              (NewServerConfigBuilder emptyBState).2 "localhost"
  let r3 := Port r2.1 r2.2 8080
  LogLevel r3.1 r3.2 "invalid"

/-- A builder whose host is omitted AND whose port is out of range:
`NewServerConfigBuilder().Port(99999)`. -/
def demoNoHostBadPort : BState × Nat :=
  let r1 := NewServerConfigBuilder emptyBState
  Port r1.1 r1.2 99999

end Builder

/-! ## Embedding of the `factory` package (`src/unnamed/part_003`)

The closed set of `PaymentProcessor` implementations becomes one inductive
type.  A Go `map[string]string` (possibly nil) is `Option (List (String × String))`;
indexing a nil map or a missing key yields the zero value `""`.  Go `len` on a
string and string slicing work on UTF-8 bytes, so strings are exploded to
their UTF-8 bytes where `Process` slices; `s[low:]` panics exactly when
`low < 0` (or `low > len(s)`), modelled by `Option`. -/

namespace Factory

/-- `type PaymentType string`. -/
abbrev PaymentType := String

/-- `CreditCard PaymentType = "credit"`. -/
def CreditCard : PaymentType := "credit"

/-- `PayPal PaymentType = "paypal"`. -/
def PayPal : PaymentType := "paypal"

/-- `BankTransfer PaymentType = "bank"`. -/
def BankTransfer : PaymentType := "bank"

/-- The closed set of concrete `PaymentProcessor` implementations of the
`factory` package, with their fields. -/
inductive PaymentProcessor where
  | CreditCardProcessor (cardNumber : String) (cvv : String)
  | PayPalProcessor (email : String)
  | BankTransferProcessor (accountNumber : String) (routingNumber : String)
deriving DecidableEq, Repr

/-- The `GetName` methods of the three processor types. -/
def GetName : PaymentProcessor → String
  | .CreditCardProcessor _ _ => "Credit Card"
  | .PayPalProcessor _ => "PayPal"
  | .BankTransferProcessor _ _ => "Bank Transfer"

/-- A `map[string]string` argument: `none` is the nil map. -/
abbrev Details := Option (List (String × String))

/-- Go map indexing `details[k]`: the zero value `""` for a nil map or a
missing key. -/
def mapGet (d : Details) (k : String) : String :=
  match d with
  | none => ""
  | some l => (l.lookup k).getD ""

/-- `CreatePaymentProcessor`: dispatches on the discriminant; unknown tags
yield `fmt.Errorf("unknown payment type: %s", paymentType)`. -/
def CreatePaymentProcessor (paymentType : PaymentType) (details : Details) :
    Except String PaymentProcessor :=
  if paymentType = CreditCard then
    .ok (.CreditCardProcessor (mapGet details "cardNumber") (mapGet details "cvv"))
  else if paymentType = PayPal then
    .ok (.PayPalProcessor (mapGet details "email"))
  else if paymentType = BankTransfer then
    .ok (.BankTransferProcessor (mapGet details "accountNumber")
          (mapGet details "routingNumber"))
  else
    .error ("unknown payment type: " ++ paymentType)

/-- UTF-8 encoding of one code point (Go strings are UTF-8 byte sequences). -/
def charUtf8 (c : Char) : List Nat :=
  let n := c.toNat
  if n < 128 then [n]
  else if n < 2048 then [192 + n / 64, 128 + n % 64]
  else if n < 65536 then [224 + n / 4096, 128 + (n / 64) % 64, 128 + n % 64]
  else [240 + n / 262144, 128 + (n / 4096) % 64, 128 + (n / 64) % 64, 128 + n % 64]

/-- The UTF-8 bytes of a string: what Go `len` and slicing operate on. -/
def goBytes (s : String) : List Nat := (s.data.map charUtf8).flatten

/-- Go `len(s)` for a string: its UTF-8 byte count. -/
def goLen (s : String) : Nat := (goBytes s).length

/-- Go string slicing `s[low:]`: the byte suffix from byte index `low`;
panics (modelled as `none`) when `low < 0` or `low > len(s)`. -/
def goSliceFrom (s : String) (low : Int) : Option (List Nat) :=
  if 0 ≤ low ∧ low ≤ (goLen s : Int) then some ((goBytes s).drop low.toNat)
  else none

/-- The `Process` methods.  Each prints a message and returns nil; the model
keeps the data interpolated into that message (as UTF-8 bytes) and drops the
`amount` argument and the fixed text, which cannot fail.  For
`CreditCardProcessor`, the message interpolates
`c.cardNumber[len(c.cardNumber)-4:]`, whose slice-bound check can panic:
`none` models that runtime panic. -/
def Process : PaymentProcessor → Option (List Nat)
  | .CreditCardProcessor cardNumber _ =>
    goSliceFrom cardNumber ((goLen cardNumber : Int) - 4)
  | .PayPalProcessor email => some (goBytes email)
  | .BankTransferProcessor accountNumber _ => some (goBytes accountNumber)

end Factory

/-! ## Theorems: singleton (claims about `GetInstance`) -/

namespace Singleton

theorem getInstance_done (s : SingletonState) (h : s.onceDone = true) :
    GetInstance s = (s, s.instanceAddr) := by
  simp [GetInstance, h]

theorem runCalls_done (s : SingletonState) (h : s.onceDone = true) (n : Nat) :
    runCalls s n = (s, List.replicate n s.instanceAddr) := by
  induction n with
  | zero => simp [runCalls]
  | succ m ih =>
    simp [runCalls, getInstance_done s h, ih, List.replicate_succ]

theorem getInstance_start :
    GetInstance startState = (afterFirst, some 0) := rfl

theorem afterFirst_fields :
    afterFirst.onceDone = true ∧ afterFirst.instanceAddr = some 0 ∧
    afterFirst.connID = 1 ∧ afterFirst.heap.length = 1 := by
  refine ⟨rfl, rfl, rfl, rfl⟩

end Singleton

/-- C1: for all N concurrent first-time callers (N ≥ 1) of `GetInstance`
(linearized to N atomic calls from the fresh process state, see the model
comment on `Singleton`), exactly one initializer invocation occurs — the
final `connID` is 1 and exactly one `DatabaseConnection` was allocated — and
all N callers receive the identical reference (the pointer to heap address 0). -/
theorem singleton_concurrent_once (n : Nat) (h : 1 ≤ n) :
    (Singleton.runCalls Singleton.startState n).1.connID = 1 ∧
    (Singleton.runCalls Singleton.startState n).1.heap.length = 1 ∧
    (Singleton.runCalls Singleton.startState n).2
      = List.replicate n (some 0) := by
  cases n with
  | zero => exact absurd h (by decide)
  | succ m =>
    have hrun : Singleton.runCalls Singleton.startState (m + 1)
        = (Singleton.afterFirst, some 0 :: List.replicate m (some 0)) := by
      simp only [Singleton.runCalls, Singleton.getInstance_start]
      rw [Singleton.runCalls_done Singleton.afterFirst rfl]
      rfl
    rw [hrun]
    exact ⟨rfl, rfl, (List.replicate_succ (some 0) m).symm⟩

theorem singleton_concurrent_once_witness :
    1 ≤ 100 ∧
    ((Singleton.runCalls Singleton.startState 100).1.connID = 1 ∧
     (Singleton.runCalls Singleton.startState 100).1.heap.length = 1 ∧
     (Singleton.runCalls Singleton.startState 100).2
       = List.replicate 100 (some 0)) :=
  ⟨by decide, singleton_concurrent_once 100 (by decide)⟩

/-- C3: once the `sync.Once` has fired (the instance is created), every
subsequent sequential `GetInstance` call returns the cached reference and
leaves the entire package state — the once flag, `connID` (so no further
initializer invocation) and the cached instance — literally unchanged, for any
number of further calls. -/
theorem singleton_completed_terminal (s : Singleton.SingletonState)
    (h : s.onceDone = true) :
    Singleton.GetInstance s = (s, s.instanceAddr) ∧
    ∀ n, Singleton.runCalls s n = (s, List.replicate n s.instanceAddr) :=
  ⟨Singleton.getInstance_done s h, fun n => Singleton.runCalls_done s h n⟩

theorem singleton_completed_terminal_witness :
    Singleton.afterFirst.onceDone = true ∧
    (Singleton.GetInstance Singleton.afterFirst
       = (Singleton.afterFirst, Singleton.afterFirst.instanceAddr) ∧
     ∀ n, Singleton.runCalls Singleton.afterFirst n
       = (Singleton.afterFirst, List.replicate n Singleton.afterFirst.instanceAddr)) :=
  ⟨rfl, singleton_completed_terminal Singleton.afterFirst rfl⟩

/-! ## Theorems: the poisoning registry of spec §4.1 -/

namespace Registry

theorem get_instance_poisoned (reg : LazySingletonRegistry) (e : String)
    (ini : Except String Nat) (h : reg.state = .Poisoned e) :
    get_instance reg ini = (reg, .error e) := by
  simp [get_instance, h]

theorem runAccessors_poisoned (reg : LazySingletonRegistry) (e : String)
    (ini : Except String Nat) (h : reg.state = .Poisoned e) (n : Nat) :
    runAccessors reg ini n = (reg, List.replicate n (.error e)) := by
  induction n with
  | zero => simp [runAccessors]
  | succ m ih =>
    simp [runAccessors, get_instance_poisoned reg e ini h, ih,
      List.replicate_succ]

/-- The registry right after a first accessor call whose initializer failed
with `e`. -/
def poisonedRegistry (e : String) : LazySingletonRegistry :=
  { state := .Poisoned e, initCount := 1 }

theorem get_instance_fresh_error (e : String) :
    get_instance freshRegistry (.error e) = (poisonedRegistry e, .error e) := rfl

end Registry

/-- C2: if the initializer fails (outcome `.error e`), the registry is
permanently poisoned: for any N ≥ 1 concurrent first-time callers the final
state is `Poisoned e` after exactly one initializer invocation, every one of
the N callers observes the same terminal failure `e`, and every later caller
(any further M calls) observes that same failure — so no caller ever observes
a successfully constructed resource. -/
theorem registry_poison_propagation (e : String) (n : Nat) (h : 1 ≤ n) :
    (Registry.runAccessors Registry.freshRegistry (.error e) n).1.state
      = .Poisoned e ∧
    (Registry.runAccessors Registry.freshRegistry (.error e) n).1.initCount = 1 ∧
    (Registry.runAccessors Registry.freshRegistry (.error e) n).2
      = List.replicate n (.error e) ∧
    ∀ m, (Registry.runAccessors
            (Registry.runAccessors Registry.freshRegistry (.error e) n).1
            (.error e) m).2 = List.replicate m (.error e) := by
  cases n with
  | zero => exact absurd h (by decide)
  | succ k =>
    have hrun : Registry.runAccessors Registry.freshRegistry (.error e) (k + 1)
        = (Registry.poisonedRegistry e,
           .error e :: List.replicate k (.error e)) := by
      simp only [Registry.runAccessors, Registry.get_instance_fresh_error]
      rw [Registry.runAccessors_poisoned (Registry.poisonedRegistry e) e _ rfl]
    rw [hrun]
    refine ⟨rfl, rfl, (List.replicate_succ _ k).symm, fun m => ?_⟩
    rw [Registry.runAccessors_poisoned (Registry.poisonedRegistry e) e _ rfl]

theorem registry_poison_propagation_witness :
    1 ≤ 3 ∧
    ((Registry.runAccessors Registry.freshRegistry (.error "boom") 3).1.state
       = .Poisoned "boom" ∧
     (Registry.runAccessors Registry.freshRegistry (.error "boom") 3).1.initCount
       = 1 ∧
     (Registry.runAccessors Registry.freshRegistry (.error "boom") 3).2
       = List.replicate 3 (.error "boom") ∧
     ∀ m, (Registry.runAccessors
             (Registry.runAccessors Registry.freshRegistry (.error "boom") 3).1
             (.error "boom") m).2 = List.replicate m (.error "boom")) :=
  ⟨by decide, registry_poison_propagation "boom" 3 (by decide)⟩

/-! ## Theorems: builder -/

namespace Builder

theorem updBuilder_at (s : BState) (b : Nat) (f : ServerConfig → ServerConfig) :
    (updBuilder s b f).builders b = { config := f (s.builders b).config } := by
  simp [updBuilder]

theorem updBuilder_ne (s : BState) (b : Nat) (f : ServerConfig → ServerConfig)
    (q : Nat) (h : q ≠ b) :
    (updBuilder s b f).builders q = s.builders q := by
  simp [updBuilder, h]

theorem updBuilder_configs (s : BState) (b : Nat)
    (f : ServerConfig → ServerConfig) :
    (updBuilder s b f).configs = s.configs := rfl

theorem applyOp_configs (s : BState) (b : Nat) (op : SetterOp) :
    (applyOp s b op).configs = s.configs := by
  cases op <;> rfl

theorem applyOp_nextConfig (s : BState) (b : Nat) (op : SetterOp) :
    (applyOp s b op).nextConfig = s.nextConfig := by
  cases op <;> rfl

theorem applyOps_configs (s : BState) (b : Nat) (ops : List SetterOp) :
    (applyOps s b ops).configs = s.configs := by
  induction ops generalizing s with
  | nil => rfl
  | cons op rest ih =>
    calc (applyOps s b (op :: rest)).configs
        = (applyOps (applyOp s b op) b rest).configs := rfl
      _ = (applyOp s b op).configs := ih (applyOp s b op)
      _ = s.configs := applyOp_configs s b op

end Builder

theorem minimalChain_staged (s : Builder.BState) :
    ((Builder.minimalChain s).1.builders (Builder.minimalChain s).2).config
      = Builder.minimalConfig := by
  simp [Builder.minimalChain, Builder.NewServerConfigBuilder, Builder.Host,
    Builder.Port, Builder.updBuilder, Builder.minimalConfig]

/-- C5: `Build()` on a fresh builder with only `Host("localhost")` and
`Port(8080)` set (run from any prior store `s`) succeeds, and the built
configuration (read through the returned pointer) has SSL disabled, a
30-second timeout, 100 maximum connections and log level "info", along with
the other defaults and the two set fields — the `minimalConfig` literal. -/
theorem build_minimal_defaults (s : Builder.BState) :
    Builder.Build (Builder.minimalChain s).1 (Builder.minimalChain s).2
      = .ok (Builder.allocConfig (Builder.minimalChain s).1
              Builder.minimalConfig) ∧
    Builder.readConfig
        (Builder.allocConfig (Builder.minimalChain s).1 Builder.minimalConfig).1
        (Builder.allocConfig (Builder.minimalChain s).1 Builder.minimalConfig).2
      = Builder.minimalConfig := by
  constructor
  · simp [Builder.Build, minimalChain_staged s, Builder.minimalConfig,
      Builder.validLogLevels]
  · simp [Builder.allocConfig, Builder.readConfig]

/-- C7: every fluent setter returns the identical receiver address `b` it was
called on, rewrites exactly its own target field of the staged configuration
of the builder at `b` (a `with`-update, so every other field is unchanged),
and touches nothing else in the store: every other builder cell is untouched
and the heap of built configs is untouched. -/
theorem builder_setters_frame (s : Builder.BState) (b : Nat) (hostV : String)
    (portV : Int) (sslV : Bool) (toV : Builder.Duration) (maxV : Int)
    (rtV : Builder.Duration) (wtV : Builder.Duration) (urlV : String)
    (cacheV : Bool) (levelV : String) :
    ((Builder.Host s b hostV).2 = b ∧
     ((Builder.Host s b hostV).1.builders b).config
       = { (s.builders b).config with Host := hostV } ∧
     (∀ q, q = b ∨ (Builder.Host s b hostV).1.builders q = s.builders q) ∧
     (Builder.Host s b hostV).1.configs = s.configs) ∧
    ((Builder.Port s b portV).2 = b ∧
     ((Builder.Port s b portV).1.builders b).config
       = { (s.builders b).config with Port := portV } ∧
     (∀ q, q = b ∨ (Builder.Port s b portV).1.builders q = s.builders q) ∧
     (Builder.Port s b portV).1.configs = s.configs) ∧
    ((Builder.EnableSSL s b sslV).2 = b ∧
     ((Builder.EnableSSL s b sslV).1.builders b).config
       = { (s.builders b).config with SSL := sslV } ∧
     (∀ q, q = b ∨ (Builder.EnableSSL s b sslV).1.builders q = s.builders q) ∧
     (Builder.EnableSSL s b sslV).1.configs = s.configs) ∧
    ((Builder.Timeout s b toV).2 = b ∧
     ((Builder.Timeout s b toV).1.builders b).config
       = { (s.builders b).config with Timeout := toV } ∧
     (∀ q, q = b ∨ (Builder.Timeout s b toV).1.builders q = s.builders q) ∧
     (Builder.Timeout s b toV).1.configs = s.configs) ∧
    ((Builder.MaxConnections s b maxV).2 = b ∧
     ((Builder.MaxConnections s b maxV).1.builders b).config
       = { (s.builders b).config with MaxConnections := maxV } ∧
     (∀ q, q = b ∨
        (Builder.MaxConnections s b maxV).1.builders q = s.builders q) ∧
     (Builder.MaxConnections s b maxV).1.configs = s.configs) ∧
    ((Builder.ReadTimeout s b rtV).2 = b ∧
     ((Builder.ReadTimeout s b rtV).1.builders b).config
       = { (s.builders b).config with ReadTimeout := rtV } ∧
     (∀ q, q = b ∨ (Builder.ReadTimeout s b rtV).1.builders q = s.builders q) ∧
     (Builder.ReadTimeout s b rtV).1.configs = s.configs) ∧
    ((Builder.WriteTimeout s b wtV).2 = b ∧
     ((Builder.WriteTimeout s b wtV).1.builders b).config
       = { (s.builders b).config with WriteTimeout := wtV } ∧
     (∀ q, q = b ∨ (Builder.WriteTimeout s b wtV).1.builders q = s.builders q) ∧
     (Builder.WriteTimeout s b wtV).1.configs = s.configs) ∧
    ((Builder.DatabaseURL s b urlV).2 = b ∧
     ((Builder.DatabaseURL s b urlV).1.builders b).config
       = { (s.builders b).config with DatabaseURL := urlV } ∧
     (∀ q, q = b ∨ (Builder.DatabaseURL s b urlV).1.builders q = s.builders q) ∧
     (Builder.DatabaseURL s b urlV).1.configs = s.configs) ∧
    ((Builder.EnableCache s b cacheV).2 = b ∧
     ((Builder.EnableCache s b cacheV).1.builders b).config
       = { (s.builders b).config with CacheEnabled := cacheV } ∧
     (∀ q, q = b ∨ (Builder.EnableCache s b cacheV).1.builders q = s.builders q) ∧
     (Builder.EnableCache s b cacheV).1.configs = s.configs) ∧
    ((Builder.LogLevel s b levelV).2 = b ∧
     ((Builder.LogLevel s b levelV).1.builders b).config
       = { (s.builders b).config with LogLevel := levelV } ∧
     (∀ q, q = b ∨ (Builder.LogLevel s b levelV).1.builders q = s.builders q) ∧
     (Builder.LogLevel s b levelV).1.configs = s.configs) := by
  refine ⟨?_, ?_, ?_, ?_, ?_, ?_, ?_, ?_, ?_, ?_⟩ <;>
  · refine ⟨rfl, ?_, fun q => ?_, rfl⟩
    · simp [Builder.Host, Builder.Port, Builder.EnableSSL, Builder.Timeout,
        Builder.MaxConnections, Builder.ReadTimeout, Builder.WriteTimeout,
        Builder.DatabaseURL, Builder.EnableCache, Builder.LogLevel,
        Builder.updBuilder]
    · by_cases h : q = b
      · exact Or.inl h
      · exact Or.inr (by
          simp [Builder.Host, Builder.Port, Builder.EnableSSL, Builder.Timeout,
            Builder.MaxConnections, Builder.ReadTimeout, Builder.WriteTimeout,
            Builder.DatabaseURL, Builder.EnableCache, Builder.LogLevel,
            Builder.updBuilder, h])

/-- C8: a successful `Build()` returns a pointer to a freshly allocated copy
of the staged configuration: the returned pointer is a standalone cell,
distinct from the builder's interior staging pointer `&b.config`; it holds
the staged value; and after any sequence of further setter calls on the same
builder, dereferencing it still yields that original value. -/
theorem build_returns_fresh_copy (s : Builder.BState) (b : Nat)
    (h1 : (s.builders b).config.Host ≠ "")
    (h2 : ¬((s.builders b).config.Port ≤ 0 ∨ (s.builders b).config.Port > 65535))
    (h3 : Builder.validLogLevels (s.builders b).config.LogLevel = true) :
    Builder.Build s b
      = .ok (Builder.allocConfig s ((s.builders b).config)) ∧
    (Builder.allocConfig s ((s.builders b).config)).2
      ≠ Builder.ConfigPtr.interior b ∧
    Builder.readConfig (Builder.allocConfig s ((s.builders b).config)).1
        (Builder.allocConfig s ((s.builders b).config)).2
      = (s.builders b).config ∧
    ∀ ops : List Builder.SetterOp,
      Builder.readConfig
          (Builder.applyOps
            (Builder.allocConfig s ((s.builders b).config)).1 b ops)
          (Builder.allocConfig s ((s.builders b).config)).2
        = (s.builders b).config := by
  refine ⟨?_, by simp [Builder.allocConfig], ?_, fun ops => ?_⟩
  · simp [Builder.Build, h1, h2, h3]
  · simp [Builder.allocConfig, Builder.readConfig]
  · show Builder.readConfig _ (Builder.ConfigPtr.cell s.nextConfig) = _
    rw [Builder.readConfig, Builder.applyOps_configs]
    simp [Builder.allocConfig]

theorem build_returns_fresh_copy_witness :
    ((Builder.demoMinimal.1.builders Builder.demoMinimal.2).config.Host ≠ ""
       ∧ ¬((Builder.demoMinimal.1.builders Builder.demoMinimal.2).config.Port ≤ 0
            ∨ (Builder.demoMinimal.1.builders Builder.demoMinimal.2).config.Port
                > 65535)
       ∧ Builder.validLogLevels
           (Builder.demoMinimal.1.builders Builder.demoMinimal.2).config.LogLevel
         = true) ∧
    (Builder.Build Builder.demoMinimal.1 Builder.demoMinimal.2
       = .ok (Builder.allocConfig Builder.demoMinimal.1
               ((Builder.demoMinimal.1.builders Builder.demoMinimal.2).config)) ∧
     (Builder.allocConfig Builder.demoMinimal.1
        ((Builder.demoMinimal.1.builders Builder.demoMinimal.2).config)).2
       ≠ Builder.ConfigPtr.interior Builder.demoMinimal.2 ∧
     Builder.readConfig
         (Builder.allocConfig Builder.demoMinimal.1
           ((Builder.demoMinimal.1.builders Builder.demoMinimal.2).config)).1
         (Builder.allocConfig Builder.demoMinimal.1
           ((Builder.demoMinimal.1.builders Builder.demoMinimal.2).config)).2
       = (Builder.demoMinimal.1.builders Builder.demoMinimal.2).config ∧
     ∀ ops : List Builder.SetterOp,
       Builder.readConfig
           (Builder.applyOps
             (Builder.allocConfig Builder.demoMinimal.1
               ((Builder.demoMinimal.1.builders Builder.demoMinimal.2).config)).1
             Builder.demoMinimal.2 ops)
           (Builder.allocConfig Builder.demoMinimal.1
             ((Builder.demoMinimal.1.builders Builder.demoMinimal.2).config)).2
         = (Builder.demoMinimal.1.builders Builder.demoMinimal.2).config) :=
  ⟨⟨by decide, by decide, by decide⟩,
   build_returns_fresh_copy Builder.demoMinimal.1 Builder.demoMinimal.2
     (by decide) (by decide) (by decide)⟩

/-- C4 (amended): `Build()` validates `Host`, then `Port`, then `LogLevel`,
in that order, and fails with a `ValidationError` naming the FIRST offending
field in that order — `Host` whenever the host is omitted, `Port` when the
host is present but the port is outside 1–65535, `LogLevel` when host and
port are acceptable but the log level is not in {debug, info, warn, error} —
and succeeds exactly when no field offends. -/
theorem build_validation_first_offender (s : Builder.BState) (b : Nat) :
    ((∃ r, Builder.Build s b = .ok r)
       ↔ ((s.builders b).config.Host ≠ "" ∧
          0 < (s.builders b).config.Port ∧
          (s.builders b).config.Port ≤ 65535 ∧
          Builder.validLogLevels (s.builders b).config.LogLevel = true)) ∧
    ((s.builders b).config.Host = "" →
      Builder.Build s b
        = .error { Field := "Host", Message := "host is required" }) ∧
    ((s.builders b).config.Host ≠ "" →
      ((s.builders b).config.Port ≤ 0 ∨ (s.builders b).config.Port > 65535) →
      Builder.Build s b
        = .error { Field := "Port",
                   Message := "port must be between 1 and 65535" }) ∧
    ((s.builders b).config.Host ≠ "" →
      0 < (s.builders b).config.Port → (s.builders b).config.Port ≤ 65535 →
      Builder.validLogLevels (s.builders b).config.LogLevel = false →
      Builder.Build s b
        = .error { Field := "LogLevel",
                   Message := "log level must be one of: debug, info, warn, error" }) := by
  refine ⟨?_, fun h => ?_, fun h1 h2 => ?_, fun h1 h2 h3 h4 => ?_⟩
  · constructor
    · intro hr
      obtain ⟨r, hr⟩ := hr
      by_cases e1 : (s.builders b).config.Host = "" <;>
        by_cases e2 : (s.builders b).config.Port ≤ 0 ∨
            (s.builders b).config.Port > 65535 <;>
        by_cases e3 : Builder.validLogLevels (s.builders b).config.LogLevel <;>
        (simp [Builder.Build, e1, e2, e3] at hr ⊢; try omega)
    · rintro ⟨e1, e2, e3, e4⟩
      refine ⟨Builder.allocConfig s ((s.builders b).config), ?_⟩
      have e2' : ¬((s.builders b).config.Port ≤ 0 ∨
          (s.builders b).config.Port > 65535) := by omega
      simp [Builder.Build, e1, e2', e4]
  · simp [Builder.Build, h]
  · simp [Builder.Build, h1, h2]
  · have h2' : ¬((s.builders b).config.Port ≤ 0 ∨
        (s.builders b).config.Port > 65535) := by omega
    simp [Builder.Build, h1, h2', h4]

theorem build_validation_first_offender_witness :
    (Builder.Build Builder.demoMissingHost.1 Builder.demoMissingHost.2
       = .error { Field := "Host", Message := "host is required" }) ∧
    (Builder.Build Builder.demoInvalidPort.1 Builder.demoInvalidPort.2
       = .error { Field := "Port",
                  Message := "port must be between 1 and 65535" }) ∧
    (Builder.Build Builder.demoBadLogLevel.1 Builder.demoBadLogLevel.2
       = .error { Field := "LogLevel",
                  Message := "log level must be one of: debug, info, warn, error" }) :=
  ⟨(build_validation_first_offender Builder.demoMissingHost.1
      Builder.demoMissingHost.2).2.1 (by decide),
   (build_validation_first_offender Builder.demoInvalidPort.1
      Builder.demoInvalidPort.2).2.2.1 (by decide) (by decide),
   (build_validation_first_offender Builder.demoBadLogLevel.1
      Builder.demoBadLogLevel.2).2.2.2 (by decide) (by decide) (by decide)
      (by decide)⟩

/-- C4, as stated, is false: on the builder
`NewServerConfigBuilder().Port(99999)` the port (99999) is outside 1–65535,
yet `Build()` does not fail naming the `Port` field — it fails naming `Host`,
because the host check comes first. -/
theorem build_port_claim_counterexample :
    (Builder.demoNoHostBadPort.1.builders
        Builder.demoNoHostBadPort.2).config.Port = 99999 ∧
    ¬(1 ≤ (Builder.demoNoHostBadPort.1.builders
            Builder.demoNoHostBadPort.2).config.Port ∧
      (Builder.demoNoHostBadPort.1.builders
          Builder.demoNoHostBadPort.2).config.Port ≤ 65535) ∧
    Builder.Build Builder.demoNoHostBadPort.1 Builder.demoNoHostBadPort.2
      = .error { Field := "Host", Message := "host is required" } ∧
    ("Host" : String) ≠ "Port" :=
  ⟨by decide, by decide, rfl, by decide⟩

/-! ## Theorems: factory -/

namespace Factory

theorem process_credit_none_iff (cn : String) (cvv : String) :
    Process (.CreditCardProcessor cn cvv) = none ↔ goLen cn < 4 := by
  simp only [Process, goSliceFrom]
  split_ifs with h
  · simp only [reduceCtorEq, false_iff]
    omega
  · simp only [true_iff]
    omega

end Factory

/-- C6: `CreatePaymentProcessor` with the bank-transfer discriminant and any
details returns the bank-transfer processor, whose `GetName()` is
"Bank Transfer"; with the unrecognized discriminant "unknown" it returns the
error "unknown payment type: unknown"; and in general it returns an error
exactly when the discriminant is outside {credit, paypal, bank}, the error
message being the bad tag appended to "unknown payment type: ". -/
theorem factory_dispatch_errors (t : Factory.PaymentType) (d : Factory.Details) :
    (Factory.CreatePaymentProcessor Factory.BankTransfer d
       = .ok (.BankTransferProcessor (Factory.mapGet d "accountNumber")
               (Factory.mapGet d "routingNumber")) ∧
     Factory.GetName
        (.BankTransferProcessor (Factory.mapGet d "accountNumber")
          (Factory.mapGet d "routingNumber")) = "Bank Transfer") ∧
    Factory.CreatePaymentProcessor "unknown" d
      = .error "unknown payment type: unknown" ∧
    ((∃ e, Factory.CreatePaymentProcessor t d = .error e)
       ↔ ¬(t = Factory.CreditCard ∨ t = Factory.PayPal
            ∨ t = Factory.BankTransfer)) ∧
    (∀ e, Factory.CreatePaymentProcessor t d = .error e
       → e = "unknown payment type: " ++ t) := by
  refine ⟨⟨rfl, rfl⟩, rfl, ?_, ?_⟩
  · by_cases h1 : t = "credit" <;> by_cases h2 : t = "paypal" <;>
      by_cases h3 : t = "bank" <;>
      simp [Factory.CreatePaymentProcessor, Factory.CreditCard, Factory.PayPal,
        Factory.BankTransfer, h1, h2, h3]
  · intro e he
    by_cases h1 : t = "credit" <;> by_cases h2 : t = "paypal" <;>
      by_cases h3 : t = "bank" <;>
      first
        | (simp [Factory.CreatePaymentProcessor, Factory.CreditCard,
             Factory.PayPal, Factory.BankTransfer, h1, h2, h3] at he;
           exact he.symm)
        | simp [Factory.CreatePaymentProcessor, Factory.CreditCard,
            Factory.PayPal, Factory.BankTransfer, h1, h2, h3] at he

theorem factory_dispatch_errors_witness :
    ((Factory.CreatePaymentProcessor Factory.BankTransfer
        (some [("accountNumber", "123456789"), ("routingNumber", "987654321")])
       = .ok (.BankTransferProcessor "123456789" "987654321") ∧
      Factory.GetName (.BankTransferProcessor "123456789" "987654321")
        = "Bank Transfer") ∧
     Factory.CreatePaymentProcessor "unknown"
        (some [("accountNumber", "123456789"), ("routingNumber", "987654321")])
       = .error "unknown payment type: unknown" ∧
     ((∃ e, Factory.CreatePaymentProcessor "unknown"
          (some [("accountNumber", "123456789"), ("routingNumber", "987654321")])
          = .error e)
        ↔ ¬(("unknown" : Factory.PaymentType) = Factory.CreditCard
             ∨ ("unknown" : Factory.PaymentType) = Factory.PayPal
             ∨ ("unknown" : Factory.PaymentType) = Factory.BankTransfer)) ∧
     (∀ e, Factory.CreatePaymentProcessor "unknown"
          (some [("accountNumber", "123456789"), ("routingNumber", "987654321")])
          = .error e
        → e = "unknown payment type: " ++ "unknown")) :=
  factory_dispatch_errors "unknown"
    (some [("accountNumber", "123456789"), ("routingNumber", "987654321")])

/-- C10: for every known discriminant, `CreatePaymentProcessor` succeeds for
every details map — the fields are filled by plain map indexing with no
validation — and indexing a nil map, or a map without the key, yields the
empty string, so missing keys produce empty-string fields. -/
theorem factory_accepts_any_details (d : Factory.Details) :
    Factory.CreatePaymentProcessor Factory.CreditCard d
      = .ok (.CreditCardProcessor (Factory.mapGet d "cardNumber")
              (Factory.mapGet d "cvv")) ∧
    Factory.CreatePaymentProcessor Factory.PayPal d
      = .ok (.PayPalProcessor (Factory.mapGet d "email")) ∧
    Factory.CreatePaymentProcessor Factory.BankTransfer d
      = .ok (.BankTransferProcessor (Factory.mapGet d "accountNumber")
              (Factory.mapGet d "routingNumber")) ∧
    (∀ k, Factory.mapGet none k = "") ∧
    (∀ l k, l.lookup k = none → Factory.mapGet (some l) k = "") :=
  ⟨rfl, rfl, rfl, fun _ => rfl,
   fun l k h => by simp [Factory.mapGet, h]⟩

theorem factory_accepts_any_details_witness :
    Factory.CreatePaymentProcessor Factory.CreditCard none
      = .ok (.CreditCardProcessor "" "") ∧
    Factory.CreatePaymentProcessor Factory.PayPal none
      = .ok (.PayPalProcessor "") ∧
    Factory.CreatePaymentProcessor Factory.BankTransfer none
      = .ok (.BankTransferProcessor "" "") ∧
    Factory.mapGet (some [("cvv", "123")]) "cardNumber" = "" :=
  ⟨(factory_accepts_any_details none).1,
   (factory_accepts_any_details none).2.1,
   (factory_accepts_any_details none).2.2.1,
   (factory_accepts_any_details (some [("cvv", "123")])).2.2.2.2
     [("cvv", "123")] "cardNumber" (by decide)⟩

/-- C9 (amended): `CreditCardProcessor.Process` slices
`cardNumber[len(cardNumber)-4:]`, where Go `len` is the UTF-8 BYTE length;
the factory does not validate the details map, so every processor created
with the credit discriminant whose `cardNumber` entry is shorter than 4
bytes — in particular a missing key or a nil map, which give the empty
string — panics in `Process` with an out-of-range slice; in general the
slice panics exactly when the stored card number is shorter than 4 bytes. -/
theorem credit_process_panics_short_bytes (d : Factory.Details)
    (h : Factory.goLen (Factory.mapGet d "cardNumber") < 4) :
    Factory.CreatePaymentProcessor Factory.CreditCard d
      = .ok (.CreditCardProcessor (Factory.mapGet d "cardNumber")
              (Factory.mapGet d "cvv")) ∧
    Factory.Process (.CreditCardProcessor (Factory.mapGet d "cardNumber")
        (Factory.mapGet d "cvv")) = none ∧
    ∀ cn cvv, (Factory.Process (.CreditCardProcessor cn cvv) = none
      ↔ Factory.goLen cn < 4) :=
  ⟨rfl, (Factory.process_credit_none_iff _ _).mpr h,
   fun cn cvv => Factory.process_credit_none_iff cn cvv⟩

theorem credit_process_panics_short_bytes_witness :
    Factory.goLen (Factory.mapGet none "cardNumber") < 4 ∧
    (Factory.CreatePaymentProcessor Factory.CreditCard none
       = .ok (.CreditCardProcessor (Factory.mapGet none "cardNumber")
               (Factory.mapGet none "cvv")) ∧
     Factory.Process (.CreditCardProcessor (Factory.mapGet none "cardNumber")
         (Factory.mapGet none "cvv")) = none ∧
     ∀ cn cvv, (Factory.Process (.CreditCardProcessor cn cvv) = none
       ↔ Factory.goLen cn < 4)) :=
  ⟨by decide, credit_process_panics_short_bytes none (by decide)⟩

/-- C9, as stated (counting characters), is false: the card number "€€" has
2 characters (fewer than 4), yet `Process` does not panic — "€€" is 6 UTF-8
bytes, so the slice `cardNumber[2:]` is in range and yields the last 4 bytes
(the final byte of the first euro sign followed by the second euro sign). -/
theorem credit_process_chars_counterexample :
    ("€€" : String).length = 2 ∧
    Factory.goLen "€€" = 6 ∧
    Factory.CreatePaymentProcessor Factory.CreditCard
        (some [("cardNumber", "€€")])
      = .ok (.CreditCardProcessor "€€" "") ∧
    Factory.Process (.CreditCardProcessor "€€" "")
      = some [172, 226, 130, 172] :=
  ⟨by decide, by decide, rfl, by decide⟩

end DesignPatterns
